import Mathlib

/-!
Verification of the satstuff frame-transformation and event-detection core.

The frame transforms are embedded over the real numbers: floating-point
vectors become exact real 3-vectors, the astropy rotation-matrix utility and
the two custom transform edges (TEME to TIRS and TIRS to ITRS) are translated
directly from the notebook source.  The event classifier and the interpolator
construction guard are embedded over the rationals, so that they stay
executable.
-/

namespace Satstuff

/-- A cartesian 3-vector (astropy CartesianRepresentation / CartesianDifferential). -/
@[ext]
structure V3 where
  x : ℝ
  y : ℝ
  z : ℝ

/-- Componentwise vector addition. -/
def V3.add (a b : V3) : V3 :=
  ⟨a.x + b.x, a.y + b.y, a.z + b.z⟩

/-- Componentwise vector subtraction. -/
def V3.sub (a b : V3) : V3 :=
  ⟨a.x - b.x, a.y - b.y, a.z - b.z⟩

/-- Vector cross product, as in numpy/astropy: a.cross b is a x b. -/
def V3.cross (a b : V3) : V3 :=
  ⟨a.y * b.z - a.z * b.y, a.z * b.x - a.x * b.z, a.x * b.y - a.y * b.x⟩

/-- Squared euclidean norm, used to state relative-tolerance bounds. -/
def V3.normSq (a : V3) : ℝ :=
  a.x ^ 2 + a.y ^ 2 + a.z ^ 2

/-- A 3x3 matrix, row major. -/
@[ext]
structure Mat3 where
  m11 : ℝ
  m12 : ℝ
  m13 : ℝ
  m21 : ℝ
  m22 : ℝ
  m23 : ℝ
  m31 : ℝ
  m32 : ℝ
  m33 : ℝ

/-- Matrix applied to a column vector. -/
def Mat3.mulVec (M : Mat3) (v : V3) : V3 :=
  ⟨M.m11 * v.x + M.m12 * v.y + M.m13 * v.z,
   M.m21 * v.x + M.m22 * v.y + M.m23 * v.z,
   M.m31 * v.x + M.m32 * v.y + M.m33 * v.z⟩

/-- Matrix product. -/
def Mat3.mul (A B : Mat3) : Mat3 :=
  ⟨A.m11 * B.m11 + A.m12 * B.m21 + A.m13 * B.m31,
   A.m11 * B.m12 + A.m12 * B.m22 + A.m13 * B.m32,
   A.m11 * B.m13 + A.m12 * B.m23 + A.m13 * B.m33,
   A.m21 * B.m11 + A.m22 * B.m21 + A.m23 * B.m31,
   A.m21 * B.m12 + A.m22 * B.m22 + A.m23 * B.m32,
   A.m21 * B.m13 + A.m22 * B.m23 + A.m23 * B.m33,
   A.m31 * B.m11 + A.m32 * B.m21 + A.m33 * B.m31,
   A.m31 * B.m12 + A.m32 * B.m22 + A.m33 * B.m32,
   A.m31 * B.m13 + A.m32 * B.m23 + A.m33 * B.m33⟩

/-- Matrix transpose (numpy .transpose()). -/
def Mat3.transpose (M : Mat3) : Mat3 :=
  ⟨M.m11, M.m21, M.m31, M.m12, M.m22, M.m32, M.m13, M.m23, M.m33⟩

/-- The identity matrix. -/
def Mat3.id : Mat3 :=
  ⟨1, 0, 0, 0, 1, 0, 0, 0, 1⟩

/-- A matrix is orthogonal when its transpose is a two-sided inverse. -/
def Mat3.IsOrthogonal (M : Mat3) : Prop :=
  M.transpose.mul M = Mat3.id ∧ M.mul M.transpose = Mat3.id

/-- A principal rotation axis. -/
inductive Axis where
  | x
  | y
  | z
deriving DecidableEq

/-- astropy rotation_matrix(angle, axis): the frame-rotation matrix about a
principal axis (the same matrices as the ERFA Rx/Ry/Rz routines that pom00 is
built from). -/
noncomputable def rotation_matrix (θ : ℝ) : Axis → Mat3
  | Axis.x =>
      ⟨1, 0, 0,
       0, Real.cos θ, Real.sin θ,
       0, -Real.sin θ, Real.cos θ⟩
  | Axis.y =>
      ⟨Real.cos θ, 0, -Real.sin θ,
       0, 1, 0,
       Real.sin θ, 0, Real.cos θ⟩
  | Axis.z =>
      ⟨Real.cos θ, Real.sin θ, 0,
       -Real.sin θ, Real.cos θ, 0,
       0, 0, 1⟩

/-- Nominal mean angular velocity of the Earth (rad/s) as per GRS 80, from the
notebook: a vector (0, 0, 7.292115e-5). -/
noncomputable def _w : V3 :=
  ⟨0, 0, 7.292115e-5⟩

/-- erfa.pom00(xp, yp, sp), the polar-motion matrix, IAU 2000.  Modelled from
its ERFA definition (the routine is an external collaborator of the
repository): starting from the identity it applies Rz(sp), then Ry(-xp), then
Rx(-yp), each left-multiplied, giving R1(-yp) R2(-xp) R3(sp). -/
noncomputable def pom00 (xp yp sp : ℝ) : Mat3 :=
  (rotation_matrix (-yp) Axis.x).mul ((rotation_matrix (-xp) Axis.y).mul (rotation_matrix sp Axis.z))

/-- _polar_mot_matrix(obstime) from the notebook: queries the Earth-orientation
provider for the polar-motion offsets (xp, yp) and the frame-bias term sp at
the instant and combines them with erfa.pom00.  The provider functions
get_polar_motion and erfa.sp00 are passed as parameters. -/
noncomputable def _polar_mot_matrix (get_polar_motion : ℝ → ℝ × ℝ) (sp00 : ℝ → ℝ) (t : ℝ) : Mat3 :=
  pom00 (get_polar_motion t).1 (get_polar_motion t).2 (sp00 t)

/-- The value type moved between frames: a position, an optional velocity and
an optional acceleration, attached to an instant.  Instants are flattened to
reals, as the transforms consume them only through the Earth-orientation
provider functions. -/
@[ext]
structure StateVector where
  instant : ℝ
  pos : V3
  vel : Option V3
  acc : Option V3

/-- The failures a function edge can raise, both coming from the astropy
frame layer rather than from the notebook code: astropy raises when the
velocity attribute is read from a coordinate that carries no differentials
(which the TEME/TIRS edges do unconditionally), and its differential
re-representation raises a generic error for a coordinate carrying any
differential beyond the single velocity key (for example an acceleration),
at the cartesian access that opens each edge.  The code itself defines no
error of its own. -/
inductive TransformError where
  | missingVelocity
  | unsupportedDifferentials
deriving DecidableEq

/-- teme_to_tirs from the notebook.  Rotation by the sidereal angle at the
instant of the state (the gmst82 angle is delegated to the external provider,
passed as the parameter gmst): the position is rotated, the velocity is
rotated and then the rotating-frame offset w x r_tirs is subtracted.  A state
carrying an acceleration differential is rejected with astropy's generic
unsupported-differentials error at the cartesian re-representation on the
first line of the edge (the frame layer supports only the single velocity
differential); after that, the velocity attribute is read unconditionally. -/
noncomputable def teme_to_tirs (gmst : ℝ → ℝ) (sv : StateVector) : Except TransformError StateVector :=
  let mat := rotation_matrix (gmst sv.instant) Axis.z
  match sv.acc with
  | some _ => Except.error TransformError.unsupportedDifferentials
  | none =>
    let r_tirs := mat.mulVec sv.pos
    match sv.vel with
    | none => Except.error TransformError.missingVelocity
    | some v =>
        let wxr := _w.cross r_tirs
        let v_tirs := (mat.mulVec v).sub wxr
        Except.ok ⟨sv.instant, r_tirs, some v_tirs, none⟩

/-- tirs_to_teme from the notebook: position rotated by the transpose of the
sidereal rotation; for the velocity the offset w x r_tirs (cross product with
the untransformed TIRS position) is added first and the sum is then rotated
back.  As in teme_to_tirs, a state carrying an acceleration differential is
rejected with astropy's generic unsupported-differentials error at the
cartesian re-representation opening the edge. -/
noncomputable def tirs_to_teme (gmst : ℝ → ℝ) (sv : StateVector) : Except TransformError StateVector :=
  let mat := (rotation_matrix (gmst sv.instant) Axis.z).transpose
  match sv.acc with
  | some _ => Except.error TransformError.unsupportedDifferentials
  | none =>
    let r_teme := mat.mulVec sv.pos
    match sv.vel with
    | none => Except.error TransformError.missingVelocity
    | some v =>
        let wxr := _w.cross sv.pos
        let v_teme := mat.mulVec (v.add wxr)
        Except.ok ⟨sv.instant, r_teme, some v_teme, none⟩

/-- Regression-guard variant demanded by the spec: teme_to_tirs with the
w x r correction term omitted from the velocity. -/
noncomputable def teme_to_tirs_noCorr (gmst : ℝ → ℝ) (sv : StateVector) : Except TransformError StateVector :=
  let mat := rotation_matrix (gmst sv.instant) Axis.z
  match sv.acc with
  | some _ => Except.error TransformError.unsupportedDifferentials
  | none =>
    let r_tirs := mat.mulVec sv.pos
    match sv.vel with
    | none => Except.error TransformError.missingVelocity
    | some v =>
        Except.ok ⟨sv.instant, r_tirs, some (mat.mulVec v), none⟩

/-- Regression-guard variant demanded by the spec: tirs_to_teme with the
w x r correction term omitted from the velocity. -/
noncomputable def tirs_to_teme_noCorr (gmst : ℝ → ℝ) (sv : StateVector) : Except TransformError StateVector :=
  let mat := (rotation_matrix (gmst sv.instant) Axis.z).transpose
  match sv.acc with
  | some _ => Except.error TransformError.unsupportedDifferentials
  | none =>
    let r_teme := mat.mulVec sv.pos
    match sv.vel with
    | none => Except.error TransformError.missingVelocity
    | some v =>
        Except.ok ⟨sv.instant, r_teme, some (mat.mulVec v), none⟩

/-- How astropy applies a matrix edge (DynamicMatrixTransform): the matrix is
applied identically to the position and to each attached differential
(velocity and acceleration), with no extra correction term; a state without
velocity just has its position rotated. -/
def applyMatrixEdge (M : Mat3) (sv : StateVector) : StateVector :=
  ⟨sv.instant, M.mulVec sv.pos, sv.vel.map M.mulVec, sv.acc.map M.mulVec⟩

/-- tirs_to_itrs from the notebook: a matrix edge whose matrix is
_polar_mot_matrix at the instant of the state. -/
noncomputable def tirs_to_itrs (get_polar_motion : ℝ → ℝ × ℝ) (sp00 : ℝ → ℝ) (sv : StateVector) : StateVector :=
  applyMatrixEdge (_polar_mot_matrix get_polar_motion sp00 sv.instant) sv

/-- itrs_to_tirs from the notebook: a matrix edge applying the transpose of
_polar_mot_matrix at the instant of the state. -/
noncomputable def itrs_to_tirs (get_polar_motion : ℝ → ℝ × ℝ) (sp00 : ℝ → ℝ) (sv : StateVector) : StateVector :=
  applyMatrixEdge (_polar_mot_matrix get_polar_motion sp00 sv.instant).transpose sv

/-- The semantic event types assigned by the classifier. -/
inductive EventKind where
  | rising_crossing
  | falling_crossing
  | local_max
  | local_min
deriving DecidableEq

/-- The rise/set classification loop from the notebook: each root of the value
interpolant is paired with rising_crossing when the derivative interpolant is
positive there (sunrise branch) and with falling_crossing otherwise (sunset
branch).  The interpolants work on flattened float times, embedded as
rationals; the derivative interpolant is passed as the evaluation function
deriv and the roots list is the output of the roots() call. -/
def rise_set_classify (deriv : ℚ → ℚ) (rise_set_events : List ℚ) : List (ℚ × EventKind) :=
  rise_set_events.map fun event_time =>
    (event_time,
     if deriv event_time > 0 then EventKind.rising_crossing else EventKind.falling_crossing)

/-- The max/min classification loop from the notebook: each root of the
derivative interpolant is paired with local_max when the value interpolant is
positive there (highest branch) and with local_min otherwise (lowest branch). -/
def min_max_classify (value : ℚ → ℚ) (min_max_events : List ℚ) : List (ℚ × EventKind) :=
  min_max_events.map fun event_time =>
    (event_time,
     if value event_time > 0 then EventKind.local_max else EventKind.local_min)

/-- The interpolator construction failure of the spec error taxonomy. -/
inductive InterpError where
  | NonMonotonicSamplesError
deriving DecidableEq

/-- Strict monotonicity of the time samples. -/
def strictlyIncreasing : List ℚ → Bool
  | [] => true
  | [_] => true
  | a :: b :: rest => decide (a < b) && strictlyIncreasing (b :: rest)

/-- An interpolant over (time, value) samples. -/
structure Interpolant where
  times : List ℚ
  values : List ℚ

/-- Modelled from the spec: the interpolator constructor with its
monotonic-samples guard.  The constructor itself is not under src (the
notebook only calls the external Akima construction at the
sun_alt_interpolator cell); per the spec it rejects non-increasing time
samples at construction, before any evaluation can happen. -/
def mkInterpolator (times values : List ℚ) : Except InterpError Interpolant :=
  if strictlyIncreasing times then Except.ok ⟨times, values⟩
  else Except.error InterpError.NonMonotonicSamplesError

/-! Algebraic helper lemmas about the embedded vector and matrix operations. -/

theorem Mat3.mul_mulVec (A B : Mat3) (v : V3) : (A.mul B).mulVec v = A.mulVec (B.mulVec v) := by
  ext <;> simp [Mat3.mul, Mat3.mulVec] <;> ring

theorem Mat3.id_mulVec (v : V3) : Mat3.id.mulVec v = v := by
  ext <;> simp [Mat3.id, Mat3.mulVec]

theorem Mat3.mul_assoc (A B C : Mat3) : (A.mul B).mul C = A.mul (B.mul C) := by
  ext <;> simp [Mat3.mul] <;> ring

theorem Mat3.id_mul (A : Mat3) : Mat3.id.mul A = A := by
  ext <;> simp [Mat3.mul, Mat3.id]

theorem Mat3.mul_id (A : Mat3) : A.mul Mat3.id = A := by
  ext <;> simp [Mat3.mul, Mat3.id]

theorem Mat3.transpose_mul (A B : Mat3) : (A.mul B).transpose = B.transpose.mul A.transpose := by
  ext <;> simp [Mat3.mul, Mat3.transpose] <;> ring

theorem Mat3.mul_isOrthogonal {A B : Mat3} (hA : A.IsOrthogonal) (hB : B.IsOrthogonal) :
    (A.mul B).IsOrthogonal := by
  obtain ⟨hA1, hA2⟩ := hA
  obtain ⟨hB1, hB2⟩ := hB
  constructor
  · rw [Mat3.transpose_mul, Mat3.mul_assoc, ← Mat3.mul_assoc A.transpose, hA1, Mat3.id_mul, hB1]
  · rw [Mat3.transpose_mul, Mat3.mul_assoc, ← Mat3.mul_assoc B, hB2, Mat3.id_mul, hA2]

theorem rotation_matrix_isOrthogonal (θ : ℝ) (axis : Axis) :
    (rotation_matrix θ axis).IsOrthogonal := by
  have h := Real.sin_sq_add_cos_sq θ
  cases axis <;>
    constructor <;>
      (ext <;> simp [rotation_matrix, Mat3.mul, Mat3.transpose, Mat3.id] <;> nlinarith [h])

theorem pom00_isOrthogonal (xp yp sp : ℝ) : (pom00 xp yp sp).IsOrthogonal :=
  Mat3.mul_isOrthogonal (rotation_matrix_isOrthogonal _ _)
    (Mat3.mul_isOrthogonal (rotation_matrix_isOrthogonal _ _) (rotation_matrix_isOrthogonal _ _))

theorem Mat3.transpose_mulVec_cancel {M : Mat3} (h : M.IsOrthogonal) (v : V3) :
    M.transpose.mulVec (M.mulVec v) = v := by
  rw [← Mat3.mul_mulVec, h.1, Mat3.id_mulVec]

theorem Mat3.mulVec_transpose_cancel {M : Mat3} (h : M.IsOrthogonal) (v : V3) :
    M.mulVec (M.transpose.mulVec v) = v := by
  rw [← Mat3.mul_mulVec, h.2, Mat3.id_mulVec]

theorem V3.sub_add_cancel (a b : V3) : (a.sub b).add b = a := by
  ext <;> simp [V3.sub, V3.add]

theorem V3.add_sub_cancel (a b : V3) : (a.add b).sub b = a := by
  ext <;> simp [V3.sub, V3.add]

/-! Claim theorems. -/

/-- Claim C1: for every input state with position and velocity, the TEME to
TIRS transform computes the rotation R about the z axis from the sidereal
angle at the instant of the state, sets the output position to R applied to
the input position, and sets the output velocity to R applied to the input
velocity minus the cross product of w = (0, 0, 7.292115e-5) rad/s with the
already-rotated position. -/
theorem teme_to_tirs_correct (gmst : ℝ → ℝ) (sv : StateVector) (v : V3)
    (h : sv.vel = some v) (ha : sv.acc = none) :
    teme_to_tirs gmst sv =
      Except.ok
        ⟨sv.instant,
         (rotation_matrix (gmst sv.instant) Axis.z).mulVec sv.pos,
         some (((rotation_matrix (gmst sv.instant) Axis.z).mulVec v).sub
            (_w.cross ((rotation_matrix (gmst sv.instant) Axis.z).mulVec sv.pos))),
         none⟩ := by
  simp [teme_to_tirs, h, ha]

/-- Witness for C1 at a concrete input. -/
theorem teme_to_tirs_correct_witness :
    (StateVector.mk 0 ⟨1, 2, 3⟩ (some ⟨4, 5, 6⟩) none).vel = some ⟨4, 5, 6⟩ ∧
    (StateVector.mk 0 ⟨1, 2, 3⟩ (some ⟨4, 5, 6⟩) none).acc = none ∧
    teme_to_tirs (fun _ => 0) (StateVector.mk 0 ⟨1, 2, 3⟩ (some ⟨4, 5, 6⟩) none) =
      Except.ok
        ⟨0,
         (rotation_matrix 0 Axis.z).mulVec ⟨1, 2, 3⟩,
         some (((rotation_matrix 0 Axis.z).mulVec ⟨4, 5, 6⟩).sub
            (_w.cross ((rotation_matrix 0 Axis.z).mulVec ⟨1, 2, 3⟩))),
         none⟩ :=
  ⟨rfl, rfl,
    teme_to_tirs_correct (fun _ => 0) (StateVector.mk 0 ⟨1, 2, 3⟩ (some ⟨4, 5, 6⟩) none)
      ⟨4, 5, 6⟩ rfl rfl⟩

/-- Claim C2: for every input state with position and velocity, the TIRS to
TEME transform rotates the position by the transpose of the sidereal rotation
and computes the output velocity by first adding w x r_tirs (cross product
with the untransformed TIRS position) to the input velocity and then applying
the transposed rotation. -/
theorem tirs_to_teme_correct (gmst : ℝ → ℝ) (sv : StateVector) (v : V3)
    (h : sv.vel = some v) (ha : sv.acc = none) :
    tirs_to_teme gmst sv =
      Except.ok
        ⟨sv.instant,
         (rotation_matrix (gmst sv.instant) Axis.z).transpose.mulVec sv.pos,
         some ((rotation_matrix (gmst sv.instant) Axis.z).transpose.mulVec
            (v.add (_w.cross sv.pos))),
         none⟩ := by
  simp [tirs_to_teme, h, ha]

/-- Witness for C2 at a concrete input. -/
theorem tirs_to_teme_correct_witness :
    (StateVector.mk 0 ⟨1, 2, 3⟩ (some ⟨4, 5, 6⟩) none).vel = some ⟨4, 5, 6⟩ ∧
    (StateVector.mk 0 ⟨1, 2, 3⟩ (some ⟨4, 5, 6⟩) none).acc = none ∧
    tirs_to_teme (fun _ => 0) (StateVector.mk 0 ⟨1, 2, 3⟩ (some ⟨4, 5, 6⟩) none) =
      Except.ok
        ⟨0,
         (rotation_matrix 0 Axis.z).transpose.mulVec ⟨1, 2, 3⟩,
         some ((rotation_matrix 0 Axis.z).transpose.mulVec
            (V3.add ⟨4, 5, 6⟩ (_w.cross ⟨1, 2, 3⟩))),
         none⟩ :=
  ⟨rfl, rfl,
    tirs_to_teme_correct (fun _ => 0) (StateVector.mk 0 ⟨1, 2, 3⟩ (some ⟨4, 5, 6⟩) none)
      ⟨4, 5, 6⟩ rfl rfl⟩

/-- Claim C3: for every state carrying position and velocity and each frame
pair registered in both directions, transforming to the other frame and back
reproduces the original state exactly (hence within 1e-9 relative tolerance):
TEME to TIRS then TIRS to TEME (and the reverse order) is the identity, and
likewise for the TIRS/ITRS polar-motion pair.  Moreover, omitting the w x r
correction term from either direction reproducibly breaks the velocity
round trip: at a concrete state the squared velocity error exceeds the squared
1e-9 relative tolerance. -/
theorem roundtrip_identity :
    (∀ (gmst : ℝ → ℝ) (sv : StateVector) (v : V3), sv.vel = some v → sv.acc = none →
        (teme_to_tirs gmst sv).bind (tirs_to_teme gmst) = Except.ok sv ∧
        (tirs_to_teme gmst sv).bind (teme_to_tirs gmst) = Except.ok sv) ∧
    (∀ (pm : ℝ → ℝ × ℝ) (sp : ℝ → ℝ) (sv : StateVector),
        itrs_to_tirs pm sp (tirs_to_itrs pm sp sv) = sv ∧
        tirs_to_itrs pm sp (itrs_to_tirs pm sp sv) = sv) ∧
    ((teme_to_tirs_noCorr (fun _ => 0) (StateVector.mk 0 ⟨1, 0, 0⟩ (some ⟨1, 0, 0⟩) none)).bind
        (tirs_to_teme (fun _ => 0)) =
      Except.ok (StateVector.mk 0 ⟨1, 0, 0⟩ (some ⟨1, 7.292115e-5, 0⟩) none) ∧
      V3.normSq (V3.sub ⟨1, 7.292115e-5, 0⟩ ⟨1, 0, 0⟩) > 1e-9 ^ 2 * V3.normSq ⟨1, 0, 0⟩) ∧
    ((teme_to_tirs (fun _ => 0) (StateVector.mk 0 ⟨1, 0, 0⟩ (some ⟨1, 0, 0⟩) none)).bind
        (tirs_to_teme_noCorr (fun _ => 0)) =
      Except.ok (StateVector.mk 0 ⟨1, 0, 0⟩ (some ⟨1, -7.292115e-5, 0⟩) none) ∧
      V3.normSq (V3.sub ⟨1, -7.292115e-5, 0⟩ ⟨1, 0, 0⟩) > 1e-9 ^ 2 * V3.normSq ⟨1, 0, 0⟩) := by
  refine ⟨?_, ?_, ⟨?_, ?_⟩, ⟨?_, ?_⟩⟩
  · intro gmst sv v h ha
    obtain ⟨t, r, vel, acc⟩ := sv
    dsimp only at h ha
    subst h
    subst ha
    have horth := rotation_matrix_isOrthogonal (gmst t) Axis.z
    constructor
    · simp [teme_to_tirs, tirs_to_teme, Except.bind, V3.sub_add_cancel,
        Mat3.transpose_mulVec_cancel horth]
    · simp [teme_to_tirs, tirs_to_teme, Except.bind, V3.add_sub_cancel,
        Mat3.mulVec_transpose_cancel horth]
  · intro pm sp sv
    obtain ⟨t, r, vel, acc⟩ := sv
    have horth := pom00_isOrthogonal (pm t).1 (pm t).2 (sp t)
    constructor <;>
      (cases vel <;> cases acc <;>
        simp [tirs_to_itrs, itrs_to_tirs, applyMatrixEdge, _polar_mot_matrix,
          Mat3.transpose_mulVec_cancel horth, Mat3.mulVec_transpose_cancel horth])
  · norm_num [teme_to_tirs_noCorr, tirs_to_teme, Except.bind, rotation_matrix,
      Mat3.mulVec, Mat3.transpose, V3.cross, V3.add, V3.sub, _w]
  · norm_num [V3.normSq, V3.sub]
  · norm_num [teme_to_tirs, tirs_to_teme_noCorr, Except.bind, rotation_matrix,
      Mat3.mulVec, Mat3.transpose, V3.cross, V3.add, V3.sub, _w]
  · norm_num [V3.normSq, V3.sub]

/-- Witness for C3 at a concrete input. -/
theorem roundtrip_identity_witness :
    (StateVector.mk 0 ⟨1, 0, 0⟩ (some ⟨1, 0, 0⟩) none).vel = some ⟨1, 0, 0⟩ ∧
    (StateVector.mk 0 ⟨1, 0, 0⟩ (some ⟨1, 0, 0⟩) none).acc = none ∧
    (teme_to_tirs (fun _ => 0) (StateVector.mk 0 ⟨1, 0, 0⟩ (some ⟨1, 0, 0⟩) none)).bind
        (tirs_to_teme (fun _ => 0)) =
      Except.ok (StateVector.mk 0 ⟨1, 0, 0⟩ (some ⟨1, 0, 0⟩) none) :=
  ⟨rfl, rfl, (roundtrip_identity.1 (fun _ => 0)
      (StateVector.mk 0 ⟨1, 0, 0⟩ (some ⟨1, 0, 0⟩) none) ⟨1, 0, 0⟩ rfl rfl).1⟩

/-- Claim C4: the TIRS to ITRS transform is a matrix edge: at every instant it
builds a single orthogonal polar-motion matrix from the polar-motion offsets
(xp, yp) and the frame-bias term sp at that instant, applies it identically to
position and to velocity with no extra velocity-correction term, and the
reverse ITRS to TIRS transform applies exactly the transpose of that same
matrix. -/
theorem tirs_itrs_matrix_edge (pm : ℝ → ℝ × ℝ) (sp : ℝ → ℝ) (sv : StateVector) :
    (_polar_mot_matrix pm sp sv.instant).IsOrthogonal ∧
    tirs_to_itrs pm sp sv = applyMatrixEdge (_polar_mot_matrix pm sp sv.instant) sv ∧
    (tirs_to_itrs pm sp sv).pos = (_polar_mot_matrix pm sp sv.instant).mulVec sv.pos ∧
    (tirs_to_itrs pm sp sv).vel = sv.vel.map (_polar_mot_matrix pm sp sv.instant).mulVec ∧
    itrs_to_tirs pm sp sv = applyMatrixEdge (_polar_mot_matrix pm sp sv.instant).transpose sv :=
  ⟨pom00_isOrthogonal _ _ _, rfl, rfl, rfl, rfl⟩

/-- Claim C5 (code bug): evaluating the TEME/TIRS function edges at a
velocity-free state.  The notebook code reads the velocity attribute
unconditionally, so both function edges fail instead of executing only the
position transform; the matrix edges of the TIRS/ITRS pair do pass a
velocity-free state through with an absent output velocity. -/
theorem no_velocity_function_edge_fails :
    teme_to_tirs (fun _ => 0) (StateVector.mk 0 ⟨1, 0, 0⟩ none none) =
      Except.error TransformError.missingVelocity ∧
    tirs_to_teme (fun _ => 0) (StateVector.mk 0 ⟨1, 0, 0⟩ none none) =
      Except.error TransformError.missingVelocity ∧
    (∀ (pm : ℝ → ℝ × ℝ) (sp : ℝ → ℝ),
      (tirs_to_itrs pm sp (StateVector.mk 0 ⟨1, 0, 0⟩ none none)).vel = none ∧
      (itrs_to_tirs pm sp (StateVector.mk 0 ⟨1, 0, 0⟩ none none)).vel = none) := by
  refine ⟨rfl, rfl, ?_⟩
  intro pm sp
  exact ⟨rfl, rfl⟩

/-- Claim C6 counterexample: at an explicit acceleration-carrying state the
TEME to TIRS edge does not fail with a dedicated UnsupportedQuantityError --
no such error exists anywhere in the code, as the TransformError vocabulary of
the embedding records: the call fails with astropy's generic
unsupported-differentials rejection, raised by the frame layer at the
cartesian re-representation opening the edge, before any quantity-specific
check could run. -/
theorem acceleration_error_counterexample :
    teme_to_tirs (fun _ => 0) (StateVector.mk 0 ⟨0, 0, 0⟩ (some ⟨0, 0, 0⟩) (some ⟨1, 2, 3⟩)) =
      Except.error TransformError.unsupportedDifferentials := rfl

/-- Claim C6 as amended: whenever a TEME/TIRS function edge receives a state
carrying an acceleration, the call fails -- with astropy's generic
unsupported-differentials error rather than a dedicated
UnsupportedQuantityError, which the code does not define -- so the
acceleration is not silently dropped; the transforms are pure, so the failure
is fatal only to that single call. -/
theorem acceleration_generic_failure (gmst : ℝ → ℝ) (sv : StateVector) (a : V3)
    (ha : sv.acc = some a) :
    teme_to_tirs gmst sv = Except.error TransformError.unsupportedDifferentials ∧
    tirs_to_teme gmst sv = Except.error TransformError.unsupportedDifferentials := by
  obtain ⟨t, r, vel, acc⟩ := sv
  dsimp only at ha
  subst ha
  exact ⟨rfl, rfl⟩

/-- Witness for the amended C6 at a concrete input. -/
theorem acceleration_generic_failure_witness :
    (StateVector.mk 0 ⟨1, 0, 0⟩ (some ⟨0, 0, 0⟩) (some ⟨1, 2, 3⟩)).acc = some ⟨1, 2, 3⟩ ∧
    tirs_to_teme (fun _ => 0) (StateVector.mk 0 ⟨1, 0, 0⟩ (some ⟨0, 0, 0⟩) (some ⟨1, 2, 3⟩)) =
      Except.error TransformError.unsupportedDifferentials :=
  ⟨rfl, (acceleration_generic_failure (fun _ => 0)
      (StateVector.mk 0 ⟨1, 0, 0⟩ (some ⟨0, 0, 0⟩) (some ⟨1, 2, 3⟩)) ⟨1, 2, 3⟩ rfl).2⟩

/-- Claim C7: every root of the value interpolant is labelled rising_crossing
when the derivative interpolant is positive there and falling_crossing when it
is negative; every root of the derivative interpolant is labelled local_max
when the value interpolant is positive there and local_min when it is
negative. -/
theorem classifier_sign_rules (deriv value : ℚ → ℚ) (valueRoots derivRoots : List ℚ) :
    (∀ t, t ∈ valueRoots →
        (deriv t > 0 → (t, EventKind.rising_crossing) ∈ rise_set_classify deriv valueRoots) ∧
        (deriv t < 0 → (t, EventKind.falling_crossing) ∈ rise_set_classify deriv valueRoots)) ∧
    (∀ t, t ∈ derivRoots →
        (value t > 0 → (t, EventKind.local_max) ∈ min_max_classify value derivRoots) ∧
        (value t < 0 → (t, EventKind.local_min) ∈ min_max_classify value derivRoots)) := by
  constructor
  · intro t ht
    refine ⟨fun hpos => ?_, fun hneg => ?_⟩
    · simp only [rise_set_classify, List.mem_map]
      exact ⟨t, ht, by rw [if_pos hpos]⟩
    · simp only [rise_set_classify, List.mem_map]
      exact ⟨t, ht, by rw [if_neg (not_lt.mpr hneg.le)]⟩
  · intro t ht
    refine ⟨fun hpos => ?_, fun hneg => ?_⟩
    · simp only [min_max_classify, List.mem_map]
      exact ⟨t, ht, by rw [if_pos hpos]⟩
    · simp only [min_max_classify, List.mem_map]
      exact ⟨t, ht, by rw [if_neg (not_lt.mpr hneg.le)]⟩

/-- Witness for C7 at a concrete input. -/
theorem classifier_sign_rules_witness :
    ((1 : ℚ) ∈ [(1 : ℚ), -1] ∧ ((1 : ℚ) > 0)) ∧
    ((1 : ℚ), EventKind.rising_crossing) ∈ rise_set_classify (fun t => t) [(1 : ℚ), -1] :=
  ⟨⟨by decide, by decide⟩,
    ((classifier_sign_rules (fun t => t) (fun t => t) [(1 : ℚ), -1] []).1 1
      (by decide)).1 (by decide)⟩

/-- Claim C10: the sign tests of the classifier are strict: a root of the
value interpolant where the derivative evaluates to exactly zero falls to the
else branch and is labelled falling_crossing (a set event), and a root of the
derivative interpolant where the value evaluates to exactly zero is labelled
local_min (a lowest event). -/
theorem classifier_strict_boundary (deriv value : ℚ → ℚ) (valueRoots derivRoots : List ℚ) :
    (∀ t, t ∈ valueRoots → deriv t = 0 →
        (t, EventKind.falling_crossing) ∈ rise_set_classify deriv valueRoots) ∧
    (∀ t, t ∈ derivRoots → value t = 0 →
        (t, EventKind.local_min) ∈ min_max_classify value derivRoots) := by
  constructor
  · intro t ht hz
    simp only [rise_set_classify, List.mem_map]
    exact ⟨t, ht, by rw [if_neg (by rw [hz]; exact lt_irrefl 0)]⟩
  · intro t ht hz
    simp only [min_max_classify, List.mem_map]
    exact ⟨t, ht, by rw [if_neg (by rw [hz]; exact lt_irrefl 0)]⟩

/-- Witness for C10 at a concrete input. -/
theorem classifier_strict_boundary_witness :
    ((3 : ℚ) ∈ [(3 : ℚ)] ∧ ((0 : ℚ) = 0)) ∧
    ((3 : ℚ), EventKind.falling_crossing) ∈ rise_set_classify (fun _ => 0) [(3 : ℚ)] ∧
    ((4 : ℚ), EventKind.local_min) ∈ min_max_classify (fun _ => 0) [(4 : ℚ)] :=
  ⟨⟨by decide, rfl⟩,
    (classifier_strict_boundary (fun _ => 0) (fun _ => 0) [(3 : ℚ)] []).1 3 (by decide) rfl,
    (classifier_strict_boundary (fun _ => 0) (fun _ => 0) [] [(4 : ℚ)]).2 4 (by decide) rfl⟩

/-- Claim C8 (spec-modelled): constructing the interpolator with the
non-increasing time samples 1.0, 0.5, 2.0 fails with
NonMonotonicSamplesError at construction time, whatever the value samples are;
no interpolant object is produced, so the failure cannot be deferred to a
first evaluation. -/
theorem nonmonotonic_guard (values : List ℚ) :
    mkInterpolator [1, 0.5, 2] values = Except.error InterpError.NonMonotonicSamplesError := by
  have h : ¬ ((1 : ℚ) < 0.5) := by norm_num
  simp [mkInterpolator, strictlyIncreasing, decide_eq_false h]

end Satstuff
